import Mathlib

/-!
# Verification of the Aletheia secure code-acceptance pipeline

Shallow embedding of `src/core/safety.py`, the dispatch portion of
`src/core/engine.py`, and `src/core/async_utils.py`.

Modelling conventions:
* A Python source string is represented by its parse outcome (`PySource`):
  either a parse failure or the sequence of AST nodes, in traversal order,
  that the validators inspect (`ast.walk` / `ast.NodeVisitor` both traverse
  every node; only import, call and attribute nodes influence any check).
* The remote generative-AI backend is an opaque oracle: each remote call's
  outcome is an environment field, `Except String String` (`.error` models a
  raised transport/remote exception, `.ok` models a returned response text).
* `json.dumps` of a fixed-shape dict is modelled as a structured record
  (`DepError`, `GenResult`); the claims are about its tags and fields.
* Python string methods `strip`, `upper`, `split`, the `in` substring test
  and the markdown extraction are implemented over `List Char`
  (ASCII-accurate, structurally recursive so concrete inputs evaluate).
-/

namespace Aletheia

/- ### Python string primitives -/

/-- Whitespace characters stripped by Python's `str.strip()`. -/
def pyIsSpace (c : Char) : Bool :=
  c = ' ' || c = '\t' || c = '\n' || c = '\x0d' || c = '\x0b' || c = '\x0c'

/-- Python `str.strip()`. -/
def pyStrip (s : String) : String :=
  String.mk (((s.toList.dropWhile pyIsSpace).reverse.dropWhile pyIsSpace).reverse)

/-- Python `str.upper()` (ASCII). -/
def pyUpper (s : String) : String :=
  String.mk (s.toList.map Char.toUpper)

/-- `needle` occurs as a contiguous substring of the remaining list. -/
def isSubstring (needle : List Char) : List Char → Bool
  | [] => needle.isEmpty
  | c :: rest => needle.isPrefixOf (c :: rest) || isSubstring needle rest

/-- Python's `needle in hay` substring test. -/
def pyInStr (needle hay : String) : Bool :=
  isSubstring needle.toList hay.toList

/-- Worker for `pySplit`: fuel-driven scan, accumulating the current piece
reversed.  Fuel is the length of the string, enough for one step per
character. -/
def splitGo (sep : List Char) : Nat → List Char → List Char → List (List Char)
  | _, [], acc => [acc.reverse]
  | 0, s, acc => [acc.reverse ++ s]
  | fuel + 1, c :: rest, acc =>
    if sep.isPrefixOf (c :: rest) then
      acc.reverse :: splitGo sep fuel ((c :: rest).drop sep.length) []
    else
      splitGo sep fuel rest (c :: acc)

/-- Python `str.split(sep)` for a non-empty separator. -/
def pySplit (sep s : String) : List String :=
  (splitGo sep.toList s.toList.length s.toList []).map String.mk

/-- Python `", ".join(...)`-style joining. -/
def joinWith (sep : String) : List String → String
  | [] => ""
  | [x] => x
  | x :: xs => x ++ sep ++ joinWith sep xs

/- ### AST model (`ast.parse` outcome) -/

/-- One syntax-tree node as seen by the validators of `src/core/safety.py`:
`ast.Import` (the aliases' dotted names), `ast.ImportFrom` (its `module`,
`none` for a relative import `from . import x`), `ast.Call` (the callee's
identifier when the callee is a plain `ast.Name`, else `none`),
`ast.Attribute` (the attribute name), or any other node. -/
inductive PyNode
  | imp (names : List String)
  | impFrom (module : Option String)
  | call (funcName : Option String)
  | attr (attrName : String)
  | plain
deriving DecidableEq

/-- A Python source string, abstracted to its parse outcome: `ast.parse`
raises `SyntaxError` (with some detail text) or yields a tree, represented
by its nodes in traversal order. -/
inductive PySource
  | parseFailure (detail : String)
  | parsed (nodes : List PyNode)
deriving DecidableEq

/- ### `src/core/safety.py`: static analysis -/

/-- `safety.py` line 23/28: modules banned by `SecurityVisitor`. -/
def bannedModules : List String := ["os", "sys", "subprocess", "shutil", "pickle"]

/-- `safety.py` line 34: call targets banned by `SecurityVisitor`. -/
def bannedCalls : List String := ["exec", "eval", "open", "globals", "locals", "__import__"]

/-- `safety.py` line 39: attributes banned by `SecurityVisitor`. -/
def bannedAttrs : List String := ["__import__", "__subclasses__"]

/-- Violations recorded by `SecurityVisitor` at one node.  `visit_Import`
matches each alias's full dotted name exactly against the banned list;
`visit_ImportFrom` matches `node.module`; `visit_Call` matches the callee
identifier; `visit_Attribute` matches the attribute name. -/
def nodeViolations : PyNode → List String
  | .imp names =>
      names.filterMap fun n =>
        if bannedModules.contains n then some ("Banned import: " ++ n) else none
  | .impFrom (some m) =>
      if bannedModules.contains m then ["Banned import from: " ++ m] else []
  | .impFrom none => []
  | .call (some f) =>
      if bannedCalls.contains f then ["Banned function call: " ++ f] else []
  | .call none => []
  | .attr a =>
      if bannedAttrs.contains a then ["Banned attribute access: " ++ a] else []
  | .plain => []

/-- All violations over the whole tree, in traversal order
(`SecurityVisitor.visit` with `generic_visit` reaches every node). -/
def collectViolations : List PyNode → List String
  | [] => []
  | n :: rest => nodeViolations n ++ collectViolations rest

/-- `static_analysis_check` (`safety.py` lines 43-57).  `.error` models a
raised `SecurityViolationException` carrying the given message. -/
def static_analysis_check : PySource → Except String Unit
  | .parseFailure detail => .error ("Syntax Error in code: " ++ detail)
  | .parsed nodes =>
    let vs := collectViolations nodes
    if vs.isEmpty then .ok ()
    else .error ("Security Violations Found: " ++ joinWith ", " vs)

/- ### `src/core/safety.py`: dependency gate -/

/-- `ALLOWED_LIBRARIES` (`safety.py` line 11). -/
def ALLOWED_LIBRARIES : List String :=
  ["numpy", "pandas", "jax", "math", "datetime", "random", "json", "re",
   "collections", "itertools", "functools"]

/-- The structured content of the `json.dumps` error payload built by
`validate_imports`. -/
structure DepError where
  status : String
  missing_lib : String
  message : String
deriving DecidableEq

/-- The dependency-error payload for a disallowed package
(`safety.py` lines 79-83 / 88-92). -/
def depMessage (pkg : String) : DepError :=
  { status := "dependency_error"
  , missing_lib := pkg
  , message := "Library \x27" ++ pkg ++ "\x27 is not available in the Demo Environment." }

/-- The dependency-error payload for a parse failure
(`safety.py` lines 67-71). -/
def depSyntaxError : DepError :=
  { status := "dependency_error"
  , missing_lib := "syntax_error"
  , message := "Syntax Error: Unable to parse code for import validation." }

/-- Top-level package of a dotted module name:
`alias.name.split('.')[0]`. -/
def topLevel (name : String) : String :=
  (pySplit "." name).headD ""

/-- The inner `for alias in node.names` loop of `validate_imports`
(`safety.py` lines 75-83): the first alias whose top-level package is not
allow-listed, in alias order. -/
def aliasScan : List String → Option String
  | [] => none
  | n :: rest =>
    if ALLOWED_LIBRARIES.contains (topLevel n) then aliasScan rest
    else some (topLevel n)

/-- The `ast.walk` loop of `validate_imports` (`safety.py` lines 73-92):
the first disallowed top-level package found, scanning nodes in traversal
order and, inside one `ast.Import`, aliases in order.  Relative imports
(`ImportFrom` with `module = None`) are skipped. -/
def importScan : List PyNode → Option String
  | [] => none
  | .imp names :: rest =>
    match aliasScan names with
    | some t => some t
    | none => importScan rest
  | .impFrom (some m) :: rest =>
    if ALLOWED_LIBRARIES.contains (topLevel m) then importScan rest
    else some (topLevel m)
  | .impFrom none :: rest => importScan rest
  | _ :: rest => importScan rest

/-- `validate_imports` (`safety.py` lines 59-94): returns
`(is_valid, error_payload)`. -/
def validate_imports : PySource → Bool × Option DepError
  | .parseFailure _ => (false, some depSyntaxError)
  | .parsed nodes =>
    match importScan nodes with
    | some pkg => (false, some (depMessage pkg))
    | none => (true, none)

/-- Specification helper: the disallowed top-level packages among a list of
aliases, in alias order. -/
def aliasBad : List String → List String
  | [] => []
  | n :: rest =>
    (if ALLOWED_LIBRARIES.contains (topLevel n) then [] else [topLevel n])
      ++ aliasBad rest

/-- Specification helper for the dependency-gate claim: the disallowed
top-level packages of all import statements, in the order the walk
encounters them. -/
def disallowedTops : List PyNode → List String
  | [] => []
  | .imp names :: rest => aliasBad names ++ disallowedTops rest
  | .impFrom (some m) :: rest =>
    (if ALLOWED_LIBRARIES.contains (topLevel m) then [] else [topLevel m])
      ++ disallowedTops rest
  | .impFrom none :: rest => disallowedTops rest
  | _ :: rest => disallowedTops rest

/-- A node that contributes nothing to the allow-list walk's import set
unless it is an import: `true` for non-import nodes and for relative
imports `from . import x` (an `ImportFrom` whose `module` is `None`),
`false` for every other import statement. -/
def relativeOnly : PyNode → Bool
  | .imp _ => false
  | .impFrom m => m.isNone
  | .call _ => true
  | .attr _ => true
  | .plain => true

/- ### `src/core/safety.py`: AI intent oracle -/

/-- The environment the oracle wrapper runs in: `GEMINI_API_KEY` (absent
means the check is skipped) and the outcome of the one remote
`generate_content` call — `.error` models any raised transport/remote
exception, `.ok t` a response with text `t`. -/
structure OracleEnv where
  apiKey : Option String
  remote : Except String String

/-- The response test of `safety.py` line 169-171:
`"BLOCK" in response.text.strip().upper()`. -/
def pyContainsBlock (t : String) : Bool :=
  pyInStr "BLOCK" (pyUpper (pyStrip t))

/-- `ai_security_check` (`safety.py` lines 139-178).  `.ok` models a plain
return (Safe); `.error` models the raised `SecurityViolationException`.
The code string only feeds the prompt; the decision depends on the key and
the remote outcome alone, so it is not a parameter here. -/
def ai_security_check (env : OracleEnv) : Except String Unit :=
  match env.apiKey with
  | none => .ok ()
  | some _ =>
    match env.remote with
    | .error _ => .ok ()
    | .ok t =>
      if pyContainsBlock t then .error "AI Sentinel detected malicious intent."
      else .ok ()

/-- `ai_security_check_async` (`safety.py` lines 180-220): the async twin,
transcribed from its own body (identical apart from `await`). -/
def ai_security_check_async (env : OracleEnv) : Except String Unit :=
  match env.apiKey with
  | none => .ok ()
  | some _ =>
    match env.remote with
    | .error _ => .ok ()
    | .ok t =>
      if pyContainsBlock t then .error "AI Sentinel detected malicious intent."
      else .ok ()

/- ### `src/core/safety.py`: sandbox executor -/

/-- The behaviour of `exec(code_str, global_vars)` on this submission:
normal completion with captured stdout, or a raised exception with message
`msg` (caught by the surrounding `try`). -/
inductive ExecBehavior
  | completes (stdout : String)
  | raises (msg : String)
deriving DecidableEq

/-- What `run_in_sandbox` does for the caller: one of its `return`
statements, or an exception escaping to the caller. -/
inductive SandboxResult
  | depRejected (e : Option DepError)
  | execError (msg : String)
  | captured (stdout : String)
  | raised (e : String)
deriving DecidableEq

/-- `run_in_sandbox` (`safety.py` lines 96-137).  The dependency gate's
rejection is returned; `static_analysis_check` and `ai_security_check` are
bare calls, so an exception they raise escapes (`.raised`); exceptions
during `exec` are caught and returned as `Execution Error` text. -/
def run_in_sandbox (env : OracleEnv) (execB : ExecBehavior) (src : PySource) :
    SandboxResult :=
  let dep := validate_imports src
  if dep.1 = false then .depRejected dep.2
  else
    match static_analysis_check src with
    | .error e => .raised e
    | .ok _ =>
      match ai_security_check env with
      | .error e => .raised e
      | .ok _ =>
        match execB with
        | .raises m => .execError m
        | .completes out => .captured out

/-- The checkpoints `run_in_sandbox` passes through, for the ordering claim. -/
inductive Step
  | depCheck
  | staticCheck
  | oracleCheck
  | execCode
deriving DecidableEq, BEq

/-- `run_in_sandbox` instrumented with the list of steps it performs, in
order.  Same control flow as `run_in_sandbox`. -/
def run_in_sandbox_steps (env : OracleEnv) (execB : ExecBehavior)
    (src : PySource) : SandboxResult × List Step :=
  let dep := validate_imports src
  if dep.1 = false then (.depRejected dep.2, [.depCheck])
  else
    match static_analysis_check src with
    | .error e => (.raised e, [.depCheck, .staticCheck])
    | .ok _ =>
      match ai_security_check env with
      | .error e => (.raised e, [.depCheck, .staticCheck, .oracleCheck])
      | .ok _ =>
        match execB with
        | .raises m =>
          (.execError m, [.depCheck, .staticCheck, .oracleCheck, .execCode])
        | .completes out =>
          (.captured out, [.depCheck, .staticCheck, .oracleCheck, .execCode])

/- ### `src/core/engine.py`: dispatch -/

/-- The structured content of the `json.dumps({"method": ..., "code": ...})`
results built by the engine's generators. -/
structure GenResult where
  method : String
  code : String
deriving DecidableEq

/-- What `dispatch_optimization` returns: either the bare string of the
no-client early return, or a method-tagged JSON payload. -/
inductive DispatchResult
  | plain (s : String)
  | jsonResult (r : GenResult)
deriving DecidableEq

/-- The environment one `dispatch_optimization` call runs in.  Each remote
`generate_content` call site gets its own outcome (`.error` = raised
transport exception, `.ok` = response text); `pyCompileOk` is the
`compile(candidate, "<string>", "exec")` oracle used by the JAX grounding
check (`true` = compiles, `false` = raises `SyntaxError`). -/
structure EngineEnv where
  hasClient : Bool
  oracle : OracleEnv
  classifyRemote : Except String String
  jaxRemote : Nat → Except String String
  refactorRemote : Except String String
  sqlRemote : Except String String
  pyCompileOk : String → Bool

/-- `AletheiaEngine._extract_code` (`engine.py` lines 37-43). -/
def extract_code (text : String) : String :=
  if pyInStr "```python" text then
    pyStrip ((pySplit "```" ((pySplit "```python" text).getD 1 "")).headD "")
  else if pyInStr "```" text then
    pyStrip ((pySplit "```" ((pySplit "```" text).getD 1 "")).headD "")
  else pyStrip text

/-- The category produced by the inner `classify_code` coroutine
(`engine.py` lines 150-171): the response text stripped and uppercased, or
`"GENERAL_LOGIC"` when the remote call raises. -/
def categoryOf (env : EngineEnv) : String :=
  match env.classifyRemote with
  | .ok t => pyUpper (pyStrip t)
  | .error _ => "GENERAL_LOGIC"

/-- One iteration of the JAX attempt loop (`engine.py` lines 74-91):
`some candidate` when the remote call returns and the extracted candidate
passes the grounding compile, `none` when the remote call raises or the
candidate fails the syntax check (both `continue`). -/
def jaxTry (env : EngineEnv) (attempt : Nat) : Option String :=
  match env.jaxRemote attempt with
  | .error _ => none
  | .ok text =>
    let candidate := extract_code text
    if env.pyCompileOk candidate then some candidate else none

/-- `AletheiaEngine.generate_async_refactor` (`engine.py` lines 102-133):
the GeneralLogic strategy.  Remote failure degrades to an error-comment
string. -/
def generate_async_refactor (env : EngineEnv) : String :=
  if env.hasClient = false then "# Gemini Client not initialized."
  else
    match env.refactorRemote with
    | .ok t => extract_code t
    | .error e => "# Error: " ++ e

/-- `AletheiaEngine.generate_jax_optimization` (`engine.py` lines 47-100):
`range(2)` attempts; on a grounded candidate returns method `"jax"`; after
both attempts fail, the raised exception is caught and the GeneralLogic
generator supplies a `"fallback"`-tagged result. -/
def generate_jax_optimization (env : EngineEnv) : GenResult :=
  if env.hasClient = false then
    { method := "error", code := "# Gemini Client not initialized." }
  else
    match jaxTry env 0 with
    | some c => { method := "jax", code := c }
    | none =>
      match jaxTry env 1 with
      | some c => { method := "jax", code := c }
      | none => { method := "fallback", code := generate_async_refactor env }

/-- `AletheiaEngine.optimize_sql` (`engine.py` lines 216-246). -/
def optimize_sql (env : EngineEnv) : String :=
  if env.hasClient = false then "-- Gemini Client not initialized."
  else
    match env.sqlRemote with
    | .ok t => extract_code t
    | .error e => "-- Error executing SQL optimization: " ++ e

/-- `AletheiaEngine.dispatch_optimization` (`engine.py` lines 135-214).
`asyncio.gather(security_task, classify_task)` raises exactly when the
security task raises (`classify_code` catches its own exceptions), and the
`except` turns that into the `"error"`-tagged result; otherwise the category
routes to JAX (with fall-through to the general refactor when the JAX
result is `"fallback"`-tagged), SQL audit, or the general refactor. -/
def dispatch_optimization (env : EngineEnv) : DispatchResult :=
  if env.hasClient = false then .plain "# Gemini Client not initialized."
  else
    match ai_security_check_async env.oracle with
    | .error e => .jsonResult { method := "error", code := "# Security Violation: " ++ e }
    | .ok _ =>
      let category := categoryOf env
      if pyInStr "HEAVY_MATH" category then
        let r := generate_jax_optimization env
        if r.method = "fallback" then
          .jsonResult { method := "complexity_reducer", code := generate_async_refactor env }
        else .jsonResult r
      else if pyInStr "SQL" category then
        .jsonResult { method := "sql_audit", code := optimize_sql env }
      else
        .jsonResult { method := "complexity_reducer", code := generate_async_refactor env }

/- ### `src/core/async_utils.py` -/

/-- `AsyncJobManager.run_io_job` (`async_utils.py` lines 35-44): awaits the
coroutine under the semaphore; a success is returned and an exception is
logged and re-raised unchanged, so the per-job outcome is preserved.  The
coroutine is modelled by its outcome. -/
def run_io_job {α : Type} (job : Except String α) : Except String α :=
  match job with
  | .ok v => .ok v
  | .error e => .error e

/-- `AsyncJobManager.run_batched_io_jobs` (`async_utils.py` lines 46-53):
wraps each coroutine with `run_io_job` in input order and gathers with
`return_exceptions=True`, so position `k` of the result holds job `k`'s
value or its exception. -/
def run_batched_io_jobs {α : Type} (jobs : List (Except String α)) :
    List (Except String α) :=
  (jobs.map run_io_job)

/-- An exception raised by an API call, with its transient-or-not
classification (e.g. HTTP 429/503 vs a permanent fault) — the distinction
`retry_api_call`'s own comment says a production policy would use. -/
structure ApiError where
  msg : String
  transient : Bool
deriving DecidableEq

/-- The configuration of a `tenacity.retry` decorator. -/
structure RetryPolicy where
  maxAttemptCount : Nat
  waitFor : Nat → Nat
  shouldRetry : ApiError → Bool
  reraiseFinal : Bool

/-- `tenacity.wait_exponential(multiplier, min, max)`: the wait after
attempt `n` (1-based) is `multiplier * 2 ^ n` clamped into
`[minW, maxW]`. -/
def wait_exponential (multiplier minW maxW n : Nat) : Nat :=
  max minW (min maxW (multiplier * 2 ^ n))

/-- `retry_api_call` (`async_utils.py` lines 64-74):
`stop_after_attempt(10)`, `wait_exponential(multiplier=1, min=2, max=60)`,
`retry_if_exception_type((Exception))` — which matches every error — and
`reraise=True`. -/
def retry_api_call_policy : RetryPolicy :=
  { maxAttemptCount := 10
  , waitFor := wait_exponential 1 2 60
  , shouldRetry := fun _ => true
  , reraiseFinal := true }

/-- Execution of a `tenacity`-decorated call: attempt `n` (1-based) has
outcome `call n`; on an error, if attempts remain and the error matches the
retry predicate, the next attempt runs, otherwise the error is re-raised
unchanged.  Returns the final outcome and the number of attempts made. -/
def retryGo {α : Type} (p : RetryPolicy) (call : Nat → Except ApiError α) :
    Nat → Nat → Except ApiError α × Nat
  | 0, n => (call n, n)
  | fuel + 1, n =>
    match call n with
    | .ok v => (.ok v, n)
    | .error e =>
      if fuel = 0 then (.error e, n)
      else if p.shouldRetry e then retryGo p call fuel (n + 1)
      else (.error e, n)

/-- Run a retry-decorated call from attempt 1 with the policy's attempt
budget. -/
def runRetry {α : Type} (p : RetryPolicy) (call : Nat → Except ApiError α) :
    Except ApiError α × Nat :=
  retryGo p call p.maxAttemptCount 1

/- ### Concrete scenario environments -/

/-- A dispatch environment whose security oracle answers `BLOCK` while the
classifier and every generator are available and succeed. -/
def blockedEnv : EngineEnv :=
  { hasClient := true
  , oracle := { apiKey := some "key", remote := .ok "BLOCK" }
  , classifyRemote := .ok "HEAVY_MATH"
  , jaxRemote := fun _ => .ok "x = 1"
  , refactorRemote := .ok "y = 2"
  , sqlRemote := .ok "SELECT 1"
  , pyCompileOk := fun _ => true }

/-- A dispatch environment classified `HEAVY_MATH` whose JAX candidates
fail the grounding compile on both attempts, with the general refactor
available. -/
def heavyMathFallbackEnv : EngineEnv :=
  { hasClient := true
  , oracle := { apiKey := none, remote := .error "down" }
  , classifyRemote := .ok "HEAVY_MATH"
  , jaxRemote := fun _ => .ok "def broken(:"
  , refactorRemote := .ok "optimized = True"
  , sqlRemote := .ok "SELECT 1"
  , pyCompileOk := fun _ => false }

/-! ## Theorems -/

/- ### Dependency gate (C4, C10) -/

/-- `aliasScan` finds exactly the head of the disallowed-alias list. -/
theorem aliasScan_eq_head (names : List String) :
    aliasScan names = (aliasBad names).head? := by
  induction names with
  | nil => rfl
  | cons n rest ih =>
    by_cases h : topLevel n ∈ ALLOWED_LIBRARIES
    · simpa [aliasScan, aliasBad, h] using ih
    · simp [aliasScan, aliasBad, h]

/-- The walk of `validate_imports` finds exactly the first disallowed
top-level package, in encounter order. -/
theorem importScan_eq_head (nodes : List PyNode) :
    importScan nodes = (disallowedTops nodes).head? := by
  induction nodes with
  | nil => rfl
  | cons n rest ih =>
    cases n with
    | imp names =>
      rw [show importScan (.imp names :: rest)
            = (match aliasScan names with
               | some t => some t
               | none => importScan rest) from rfl]
      rw [aliasScan_eq_head]
      cases h : aliasBad names with
      | nil => simpa [disallowedTops, h] using ih
      | cons x xs => simp [disallowedTops, h]
    | impFrom m =>
      cases m with
      | none => simpa [importScan, disallowedTops] using ih
      | some s =>
        by_cases h : topLevel s ∈ ALLOWED_LIBRARIES
        · simpa [importScan, disallowedTops, h] using ih
        · simp [importScan, disallowedTops, h]
    | call f => simpa [importScan, disallowedTops] using ih
    | attr a => simpa [importScan, disallowedTops] using ih
    | plain => simpa [importScan, disallowedTops] using ih

/-- C4: for every parsed source with some import whose top-level package is
not allow-listed, `validate_imports` returns a rejection whose
`missing_lib` is the first disallowed top-level package the walk
encounters; when all imports are allow-listed it returns `(True, None)`. -/
theorem dependency_gate_first_disallowed (nodes : List PyNode) :
    (∀ pkg, (disallowedTops nodes).head? = some pkg →
      validate_imports (.parsed nodes) = (false, some (depMessage pkg)))
    ∧ (disallowedTops nodes = [] →
      validate_imports (.parsed nodes) = (true, none)) := by
  constructor
  · intro pkg h
    simp [validate_imports, importScan_eq_head nodes, h]
  · intro h
    simp [validate_imports, importScan_eq_head nodes, h]

/-- Witness for the dependency-gate claim: `sklearn` is reported first for
a source importing `numpy`, `sklearn.metrics` and `torch`. -/
theorem dependency_gate_first_disallowed_witness :
    validate_imports
        (.parsed [.imp ["numpy"], .impFrom (some "sklearn.metrics"), .imp ["torch"]])
      = (false, some (depMessage "sklearn")) :=
  (dependency_gate_first_disallowed
      [.imp ["numpy"], .impFrom (some "sklearn.metrics"), .imp ["torch"]]).1
    "sklearn" rfl

/-- The walk finds no disallowed package when every import statement is a
relative import with no module name. -/
theorem importScan_none_of_relative :
    ∀ (nodes : List PyNode), (∀ n ∈ nodes, relativeOnly n = true) →
      importScan nodes = none := by
  intro nodes
  induction nodes with
  | nil => intro _; rfl
  | cons n rest ih =>
    intro h
    have hn := h n (List.mem_cons_self _ _)
    have hr := fun m hm => h m (List.mem_cons_of_mem _ hm)
    cases n with
    | imp names => simp [relativeOnly] at hn
    | impFrom m =>
      cases m with
      | none => simpa [importScan] using ih hr
      | some s => simp [relativeOnly] at hn
    | call f => simpa [importScan] using ih hr
    | attr a => simpa [importScan] using ih hr
    | plain => simpa [importScan] using ih hr

/-- C10: a source whose import statements are all relative imports with no
module name (`from . import x`, i.e. `ImportFrom` nodes with
`module = None`) passes `validate_imports` with `(True, None)`: such
imports are never checked against the allow-list. -/
theorem relative_imports_allowed (nodes : List PyNode)
    (h : ∀ n ∈ nodes, relativeOnly n = true) :
    validate_imports (.parsed nodes) = (true, none) := by
  simp [validate_imports, importScan_none_of_relative nodes h]

/-- Witness: a source with one relative import and a call node is allowed. -/
theorem relative_imports_allowed_witness :
    validate_imports (.parsed [.impFrom none, .call (some "print"), .plain])
      = (true, none) :=
  relative_imports_allowed [.impFrom none, .call (some "print"), .plain]
    (by decide)

/- ### Intent oracle (C9, C5) -/

/-- C9: the synchronous and asynchronous oracle entry points implement
identical decision logic — for the same API-key presence and the same
remote outcome (response text or raised transport failure) they produce the
same outcome, returning Safe or raising the same security violation. -/
theorem oracle_sync_async_agree :
    ∀ env : OracleEnv, ai_security_check env = ai_security_check_async env :=
  fun _ => rfl

/-- C5 counterexample: the remote response `"DO NOT BLOCK"` is outside the
exact expected label set, yet `ai_security_check` raises a
block — because the code tests `"BLOCK" in response.text.strip().upper()`,
a substring match, not an exact label comparison. -/
theorem oracle_nonlabel_response_blocks :
    ai_security_check { apiKey := some "key", remote := .ok "DO NOT BLOCK" }
        = .error "AI Sentinel detected malicious intent."
    ∧ ("DO NOT BLOCK" : String) ≠ "SAFE"
    ∧ ("DO NOT BLOCK" : String) ≠ "BLOCK" :=
  ⟨rfl, by decide, by decide⟩

/-- C5 amended: `ai_security_check` yields Safe (returns without raising)
on a missing API key and on every transport/remote failure; given a remote
response it raises a block exactly when the stripped, uppercased response
text contains `"BLOCK"` as a substring, and yields Safe otherwise (so some
responses outside the exact label set also raise). -/
theorem oracle_decision_characterization (env : OracleEnv) :
    (ai_security_check env = .ok ()
      ∨ ai_security_check env = .error "AI Sentinel detected malicious intent.")
    ∧ (ai_security_check env = .error "AI Sentinel detected malicious intent."
        ↔ env.apiKey.isSome = true
          ∧ ∃ t, env.remote = .ok t ∧ pyContainsBlock t = true) := by
  obtain ⟨k, r⟩ := env
  cases k with
  | none => cases r <;> simp [ai_security_check]
  | some key =>
    cases r with
    | error e => simp [ai_security_check]
    | ok t =>
      by_cases h : pyContainsBlock t = true
      · simp [ai_security_check, h]
      · simp [ai_security_check, h]

/- ### Sandbox executor (C1, C2) -/

/-- C1 counterexample: on the source `eval("1+1")` — which passes the
dependency gate — `run_in_sandbox` does not return a terminal value: the
`SecurityViolationException` raised by the bare `static_analysis_check`
call escapes to the caller. -/
theorem sandbox_banned_call_raises :
    run_in_sandbox { apiKey := none, remote := .error "" } (.completes "")
        (.parsed [.call (some "eval")])
      = .raised "Security Violations Found: Banned function call: eval" :=
  rfl

/-- C1 amended: `run_in_sandbox` returns a terminal value for syntactically
invalid input (the dependency gate returns its structured `syntax_error`
rejection first), for dependency rejections, and for runtime errors during
execution (caught and returned as `Execution Error` text); but an exception
escapes to the caller exactly when the dependency gate passes and either
static analysis finds a violation or the oracle signals a block. -/
theorem sandbox_escape_characterization (env : OracleEnv)
    (execB : ExecBehavior) (src : PySource) :
    ((∃ e, run_in_sandbox env execB src = .raised e) ↔
      (validate_imports src).1 = true
        ∧ (static_analysis_check src ≠ .ok () ∨ ai_security_check env ≠ .ok ()))
    ∧ ((validate_imports src).1 = true → static_analysis_check src = .ok () →
        ai_security_check env = .ok () →
        ∀ m, run_in_sandbox env (.raises m) src = .execError m) := by
  rcases hv : validate_imports src with ⟨b, o⟩
  cases b with
  | false =>
    refine ⟨⟨?_, ?_⟩, ?_⟩
    · rintro ⟨e, he⟩
      simp [run_in_sandbox, hv] at he
    · rintro ⟨h1, _⟩
      simp at h1
    · intro h1
      simp at h1
  | true =>
    cases hs : static_analysis_check src with
    | error e =>
      refine ⟨⟨?_, ?_⟩, ?_⟩
      · intro _
        exact ⟨rfl, Or.inl (by simp)⟩
      · intro _
        exact ⟨e, by simp [run_in_sandbox, hv, hs]⟩
      · intro _ h2
        simp at h2
    | ok u =>
      cases u
      cases ha : ai_security_check env with
      | error e2 =>
        refine ⟨⟨?_, ?_⟩, ?_⟩
        · intro _
          exact ⟨rfl, Or.inr (by simp)⟩
        · intro _
          exact ⟨e2, by simp [run_in_sandbox, hv, hs, ha]⟩
        · intro _ _ h3
          simp at h3
      | ok u2 =>
        cases u2
        refine ⟨⟨?_, ?_⟩, ?_⟩
        · rintro ⟨e, he⟩
          cases execB <;> simp [run_in_sandbox, hv, hs, ha] at he
        · rintro ⟨_, h2 | h3⟩
          · exact absurd rfl h2
          · exact absurd rfl h3
        · intro _ _ _ m
          simp [run_in_sandbox, hv, hs, ha]

/-- Witness for the amended sandbox claim: a runtime error during execution
of an accepted empty program is returned as an `Execution Error` value, not
raised. -/
theorem sandbox_escape_characterization_witness :
    run_in_sandbox { apiKey := none, remote := .error "" } (.raises "boom")
        (.parsed []) = .execError "boom" :=
  (sandbox_escape_characterization { apiKey := none, remote := .error "" }
      (.raises "boom") (.parsed [])).2 rfl rfl rfl "boom"

/-- C2: instrumenting `run_in_sandbox` with the checkpoints it passes, the
step list is always a prefix of
`[depCheck, staticCheck, oracleCheck, execCode]` starting at the dependency
check; the `exec` step is reached only when the dependency gate returned
valid, static analysis found no violation and the oracle did not block, and
then the steps are exactly dependency check, then static AST check, then
oracle check, then execution.  The instrumented function returns the same
result as `run_in_sandbox`. -/
theorem sandbox_gate_ordering (env : OracleEnv) (execB : ExecBehavior)
    (src : PySource) :
    ((run_in_sandbox_steps env execB src).2.isPrefixOf
        [Step.depCheck, Step.staticCheck, Step.oracleCheck, Step.execCode] = true)
    ∧ (run_in_sandbox_steps env execB src).2.head? = some Step.depCheck
    ∧ (Step.execCode ∈ (run_in_sandbox_steps env execB src).2 →
        (run_in_sandbox_steps env execB src).2
            = [Step.depCheck, Step.staticCheck, Step.oracleCheck, Step.execCode]
          ∧ (validate_imports src).1 = true
          ∧ static_analysis_check src = .ok ()
          ∧ ai_security_check env = .ok ())
    ∧ (run_in_sandbox_steps env execB src).1 = run_in_sandbox env execB src := by
  rcases hv : validate_imports src with ⟨b, o⟩
  cases b with
  | false =>
    have hsteps : (run_in_sandbox_steps env execB src).2 = [Step.depCheck] := by
      simp [run_in_sandbox_steps, hv]
    refine ⟨by rw [hsteps]; decide, by rw [hsteps]; rfl, ?_, ?_⟩
    · intro hmem
      rw [hsteps] at hmem
      simp at hmem
    · simp [run_in_sandbox_steps, run_in_sandbox, hv]
  | true =>
    cases hs : static_analysis_check src with
    | error e =>
      have hsteps : (run_in_sandbox_steps env execB src).2
          = [Step.depCheck, Step.staticCheck] := by
        simp [run_in_sandbox_steps, hv, hs]
      refine ⟨by rw [hsteps]; decide, by rw [hsteps]; rfl, ?_, ?_⟩
      · intro hmem
        rw [hsteps] at hmem
        simp at hmem
      · simp [run_in_sandbox_steps, run_in_sandbox, hv, hs]
    | ok u =>
      cases u
      cases ha : ai_security_check env with
      | error e2 =>
        have hsteps : (run_in_sandbox_steps env execB src).2
            = [Step.depCheck, Step.staticCheck, Step.oracleCheck] := by
          simp [run_in_sandbox_steps, hv, hs, ha]
        refine ⟨by rw [hsteps]; decide, by rw [hsteps]; rfl, ?_, ?_⟩
        · intro hmem
          rw [hsteps] at hmem
          simp at hmem
        · simp [run_in_sandbox_steps, run_in_sandbox, hv, hs, ha]
      | ok u2 =>
        cases u2
        have hsteps : (run_in_sandbox_steps env execB src).2
            = [Step.depCheck, Step.staticCheck, Step.oracleCheck, Step.execCode] := by
          cases execB <;> simp [run_in_sandbox_steps, hv, hs, ha]
        refine ⟨by rw [hsteps]; decide, by rw [hsteps]; rfl, ?_, ?_⟩
        · intro _
          exact ⟨hsteps, rfl, rfl, rfl⟩
        · cases execB <;> simp [run_in_sandbox_steps, run_in_sandbox, hv, hs, ha]

/-- Witness for the gate-ordering claim: on `print("hello")`-like accepted
input the instrumented executor performs exactly the four steps in order. -/
theorem sandbox_gate_ordering_witness :
    (run_in_sandbox_steps { apiKey := none, remote := .error "" }
        (.completes "out") (.parsed [.call (some "print")])).2
      = [Step.depCheck, Step.staticCheck, Step.oracleCheck, Step.execCode] :=
  ((sandbox_gate_ordering { apiKey := none, remote := .error "" }
      (.completes "out") (.parsed [.call (some "print")])).2.2.1
    (show Step.execCode ∈
        [Step.depCheck, Step.staticCheck, Step.oracleCheck, Step.execCode] by simp)).1

/- ### Dispatcher (C3, C6) -/

/-- C3: when the security check raises a block, `dispatch_optimization`
returns the `"error"`-tagged structured result whose code field is the
fixed `# Security Violation` comment — for every classifier outcome and
every generator behaviour (all of which are arbitrary in `env`), so the
classification result is discarded and no generated code appears in the
output. -/
theorem dispatch_security_block_aborts (env : EngineEnv) (e : String)
    (hc : env.hasClient = true)
    (hsec : ai_security_check_async env.oracle = .error e) :
    dispatch_optimization env
      = .jsonResult { method := "error", code := "# Security Violation: " ++ e } := by
  simp [dispatch_optimization, hc, hsec]

/-- Witness: with the oracle answering `BLOCK` and the classifier and all
generators succeeding, dispatch still returns only the security-violation
error result. -/
theorem dispatch_security_block_aborts_witness :
    dispatch_optimization blockedEnv
      = .jsonResult
          { method := "error"
          , code := "# Security Violation: AI Sentinel detected malicious intent." } :=
  dispatch_security_block_aborts blockedEnv
    "AI Sentinel detected malicious intent." rfl rfl

/-- C6: when the category contains `HEAVY_MATH` and both JAX attempts fail
the grounding check (`jaxTry` yields no candidate at attempts 0 and 1),
dispatch falls through to the GeneralLogic strategy
(`generate_async_refactor`) and tags the result `"complexity_reducer"`,
distinct from the `"jax"` tag of a primary-path success — the JAX generator
itself reports `"fallback"`. -/
theorem dispatch_heavymath_fallback (env : EngineEnv)
    (hc : env.hasClient = true)
    (hsec : ai_security_check_async env.oracle = .ok ())
    (hcat : pyInStr "HEAVY_MATH" (categoryOf env) = true)
    (hj0 : jaxTry env 0 = none)
    (hj1 : jaxTry env 1 = none) :
    dispatch_optimization env
        = .jsonResult
            { method := "complexity_reducer"
            , code := generate_async_refactor env }
      ∧ (generate_jax_optimization env).method = "fallback"
      ∧ ("complexity_reducer" : String) ≠ "jax" := by
  have hjax : generate_jax_optimization env
      = { method := "fallback", code := generate_async_refactor env } := by
    simp [generate_jax_optimization, hc, hj0, hj1]
  refine ⟨?_, by rw [hjax], by decide⟩
  simp [dispatch_optimization, hc, hsec, hcat, hjax]

/-- Witness: in an environment classified `HEAVY_MATH` whose JAX candidates
fail the compile check twice, dispatch returns the GeneralLogic result with
the `"complexity_reducer"` tag. -/
theorem dispatch_heavymath_fallback_witness :
    dispatch_optimization heavyMathFallbackEnv
      = .jsonResult { method := "complexity_reducer", code := "optimized = True" } :=
  (dispatch_heavymath_fallback heavyMathFallbackEnv rfl rfl (by decide) rfl rfl).1

/- ### Async job manager (C8) -/

/-- C8: `run_batched_io_jobs` over N jobs returns exactly N results; the
position of a failing job holds its error, and every other position holds
that job's successful result — one failure never aborts sibling jobs. -/
theorem batched_jobs_positionwise {α : Type} (jobs : List (Except String α))
    (k : Nat) (e : String) (hk : jobs[k]? = some (.error e)) :
    (run_batched_io_jobs jobs).length = jobs.length
    ∧ (run_batched_io_jobs jobs)[k]? = some (.error e)
    ∧ ∀ (j : Nat) (v : α), jobs[j]? = some (.ok v) →
        (run_batched_io_jobs jobs)[j]? = some (.ok v) := by
  have hid : ∀ x : Except String α, run_io_job x = x := by
    intro x
    cases x <;> rfl
  refine ⟨by simp [run_batched_io_jobs], ?_, ?_⟩
  · simp [run_batched_io_jobs, List.getElem?_map, hk, hid]
  · intro j v hj
    simp [run_batched_io_jobs, List.getElem?_map, hj, hid]

/-- Witness: in a three-job batch whose middle job fails, the middle
position holds the error and the last position holds its job's result. -/
theorem batched_jobs_positionwise_witness :
    (run_batched_io_jobs
        ([.ok "a", .error "boom", .ok "c"] : List (Except String String)))[1]?
      = some (.error "boom")
    ∧ (run_batched_io_jobs
        ([.ok "a", .error "boom", .ok "c"] : List (Except String String)))[2]?
      = some (.ok "c") := by
  have h := batched_jobs_positionwise
    ([.ok "a", .error "boom", .ok "c"] : List (Except String String)) 1 "boom" rfl
  exact ⟨h.2.1, h.2.2 2 "c" rfl⟩

/- ### Retry policy (C7) -/

/-- C7 counterexample: a non-transient error (e.g. an HTTP 400, not a
transient 429/503) is still retried — the broad
`retry_if_exception_type((Exception))` predicate accepts it and the
always-failing call is attempted all 10 times instead of once, refuting
"retries only on transient-classified errors". -/
theorem retry_nontransient_retried :
    retry_api_call_policy.shouldRetry { msg := "HTTP 400 Bad Request", transient := false }
        = true
    ∧ (runRetry retry_api_call_policy
        (fun _ => (.error { msg := "HTTP 400 Bad Request", transient := false }
          : Except ApiError String))).2 = 10 :=
  ⟨rfl, rfl⟩

/-- The attempt counter of `retryGo` started at attempt `n` with `fuel + 1`
attempts available never exceeds `n + fuel`. -/
theorem retryGo_attempts_le {α : Type} (p : RetryPolicy)
    (call : Nat → Except ApiError α) :
    ∀ fuel n, (retryGo p call (fuel + 1) n).2 ≤ n + fuel := by
  intro fuel
  induction fuel with
  | zero =>
    intro n
    cases h : call n with
    | ok v => simp [retryGo, h]
    | error e => simp [retryGo, h]
  | succ f ih =>
    intro n
    cases h : call n with
    | ok v => simp [retryGo, h]
    | error e =>
      rw [show retryGo p call (f + 1 + 1) n
            = (if f + 1 = 0 then (.error e, n)
               else if p.shouldRetry e then retryGo p call (f + 1) (n + 1)
               else (.error e, n)) by rw [retryGo, h]]
      by_cases hr : p.shouldRetry e = true
      · simpa [hr] using Nat.le_trans (ih (n + 1)) (by omega)
      · simp [hr]

/-- C7 amended: `retry_api_call` is bounded exponential backoff with a
fixed maximum of 10 attempts, a wait that starts at 2 seconds and doubles
each attempt up to the 60-second ceiling, and re-raises the final error
unchanged after exhausting its attempts — but it retries on every error
(the broad `Exception` match), not only on transient-classified ones. -/
theorem retry_policy_characterization : ∀ (e : ApiError),
    runRetry retry_api_call_policy
        (fun _ => (.error e : Except ApiError String)) = (.error e, 10)
    ∧ retry_api_call_policy.shouldRetry e = true
    ∧ retry_api_call_policy.maxAttemptCount = 10
    ∧ retry_api_call_policy.waitFor 1 = 2
    ∧ (∀ n, 1 ≤ n →
        retry_api_call_policy.waitFor (n + 1)
          = min 60 (2 * retry_api_call_policy.waitFor n))
    ∧ (∀ (call : Nat → Except ApiError String),
        (runRetry retry_api_call_policy call).2 ≤ 10) := by
  intro e
  refine ⟨rfl, rfl, rfl, rfl, ?_, ?_⟩
  · intro n hn
    have h2 : 2 ≤ 2 ^ n := by
      calc 2 = 2 ^ 1 := rfl
      _ ≤ 2 ^ n := Nat.pow_le_pow_right (by norm_num) hn
    simp only [retry_api_call_policy, wait_exponential, one_mul, pow_succ]
    omega
  · intro call
    exact retryGo_attempts_le retry_api_call_policy call 9 1

/-- Witness: the wait after attempt 3 is double the wait after attempt 2
(capped at 60), instantiating the doubling law at a concrete attempt. -/
theorem retry_policy_characterization_witness :
    retry_api_call_policy.waitFor 3
      = min 60 (2 * retry_api_call_policy.waitFor 2) :=
  (retry_policy_characterization
      { msg := "err", transient := true }).2.2.2.2.1 2 (by decide)

end Aletheia
